import Mathlib

/-!
Shallow embedding of the risk-assessment engine of the Water-Monitoring
repository (`src/shared/utils/risk-calculation.ts` and the testing-logic
module exporting `isInCriticalRange`, `getRiskLevel`, `analyzeTestResults`).

JavaScript numbers are modelled as rationals (`ℚ`); `Math.round` is
round-half-up (`⌊x + 1/2⌋`); a JS `string | number` value is the inductive
`JsValue`; strings are worked on as `List Char`.
-/

set_option allowUnsafeReducibility true

attribute [local semireducible] Rat.mul Rat.inv Rat.ofScientific Rat.add Rat.sub

namespace WaterMonitoring

/-- A JS `string | number` value, as accepted by the testing-logic functions. -/
inductive JsValue where
  | num (q : ℚ)
  | str (s : String)
deriving DecidableEq, Repr

/-- `interface TestParameter` from `src/shared/types/testing-kits.ts`. -/
structure TestParameter where
  name : String
  critical_range : String
  pathogen_risk : String
  associated_diseases : List String
  confidence_score : ℚ
deriving DecidableEq, Repr

/-- `interface TestingKit` from `src/shared/types/testing-kits.ts`. -/
structure TestingKit where
  kit : String
  result_type : String
  parameters : List TestParameter
deriving DecidableEq, Repr

/-- `interface ParameterValue` from `src/shared/types/testing-kits.ts`
(the optional `unit` field is never read by the engine). -/
structure ParameterValue where
  name : String
  value : JsValue
deriving DecidableEq, Repr

/-- The three risk tiers `'low' | 'medium' | 'high'`. -/
inductive RiskLevel where
  | low
  | medium
  | high
deriving DecidableEq, Repr

/-- `interface TestResult` from `src/shared/types/testing-kits.ts`. -/
structure TestResult where
  parameter : TestParameter
  value : JsValue
  isInCriticalRange : Bool
  riskLevel : RiskLevel
deriving DecidableEq, Repr

/-- `interface KitTestResult` from `src/shared/types/testing-kits.ts`. -/
structure KitTestResult where
  kit : TestingKit
  results : List TestResult
  overallRisk : RiskLevel
  confidence : ℚ
deriving DecidableEq, Repr

/-! ### String helpers (models of the JS string operations used) -/

/-- `startsWithChars hay needle`: `hay` begins with `needle`
(model of JS `String.prototype.startsWith`). -/
def startsWithChars : List Char → List Char → Bool
  | _, [] => true
  | [], _ :: _ => false
  | a :: as, b :: bs => a = b && startsWithChars as bs

/-- `containsSub needle hay`: `needle` occurs as a contiguous substring of
`hay` (model of JS `String.prototype.includes`). -/
def containsSub (needle : List Char) : List Char → Bool
  | [] => startsWithChars [] needle
  | c :: t => startsWithChars (c :: t) needle || containsSub needle t

/-- Decimal digits of a numeral read into a natural number. -/
def digitsToNat (l : List Char) : Nat :=
  l.foldl (fun n c => 10 * n + (c.toNat - ('0').toNat)) 0

/-- Model of JS `parseFloat` on the decimal fragment the engine relies on:
skip leading whitespace, optional sign, an integer part, an optional `.` and
fractional part, and ignore any trailing text; `none` when no digit is
consumed (JS `NaN`).  Exponents and `Infinity` (never produced by the
catalog's range expressions) are out of the modelled domain. -/
def parseFloatQ : List Char → Option ℚ := fun s =>
  let s1 := s.dropWhile (fun c => c = ' ' || c = '\t' || c = '\n' || c = '\r')
  let signAndRest : ℚ × List Char :=
    match s1 with
    | '-' :: t => (-1, t)
    | '+' :: t => (1, t)
    | _ => (1, s1)
  let sign := signAndRest.1
  let s2 := signAndRest.2
  let intPart := s2.takeWhile Char.isDigit
  let s3 := s2.dropWhile Char.isDigit
  match s3 with
  | '.' :: t =>
    let fracPart := t.takeWhile Char.isDigit
    if intPart.isEmpty && fracPart.isEmpty then none
    else
      some (sign * ((digitsToNat intPart : ℚ) +
        (digitsToNat fracPart : ℚ) / ((10 : ℚ) ^ fracPart.length)))
  | _ =>
    if intPart.isEmpty then none
    else some (sign * (digitsToNat intPart : ℚ))

/-- Model of JS `Number.prototype.toString` as far as the engine observes it:
integers print in decimal (e.g. `1` ↦ `"1"`); for non-integers we print
`num/den`, which differs textually from JS's decimal rendering but, like it,
is never one of the presence tokens (both renderings contain a digit and,
for non-integers, a punctuation mark). -/
def jsNumToChars (q : ℚ) : List Char :=
  if q.den = 1 then (toString q.num).data
  else (toString q.num).data ++ '/' :: (toString q.den).data

/-- `value.toString()` for a `string | number` value. -/
def jsToChars : JsValue → List Char
  | .str s => s.data
  | .num q => jsNumToChars q

/-- `Math.round`: round half away from zero toward `+∞` (JS semantics on
finite numbers). -/
def jsRound (q : ℚ) : ℤ := ⌊q + 1 / 2⌋

/-! ### `parseNumericValue` and `isInCriticalRange`
(testing-logic module, `export function parseNumericValue` /
`export function isInCriticalRange`) -/

/-- `parseNumericValue(value)`: a number passes through; a string goes
through `parseFloat`, with `NaN` mapped to `null` (`none`). -/
def parseNumericValue : JsValue → Option ℚ
  | .num q => some q
  | .str s => parseFloatQ s.data

/-- Characters matched by the regex class `[0-9.]`. -/
def isRangeChar (c : Char) : Bool := c.isDigit || c = '.'

/-- Scanner for the global regex `/<([0-9.]+)|>([0-9.]+)/g`, structurally
recursive on a fuel bound (one unit per character examined, and a match
consumes at least its own length). -/
def extractMatchesFuel : Nat → List Char → List (List Char)
  | 0, _ => []
  | _ + 1, [] => []
  | fuel + 1, c :: rest =>
    if c = '<' || c = '>' then
      let run := rest.takeWhile isRangeChar
      if run.isEmpty then extractMatchesFuel fuel rest
      else (c :: run) :: extractMatchesFuel fuel (rest.drop run.length)
    else extractMatchesFuel fuel rest

/-- All matches of the global regex `/<([0-9.]+)|>([0-9.]+)/g` in order:
each is an operator character `<` or `>` followed by a maximal nonempty run
of characters in `[0-9.]`. -/
def extractMatches (l : List Char) : List (List Char) :=
  extractMatchesFuel l.length l

/-- The body of the `matches.some(...)` callback: a match starting with `<`
holds when the value is below its parsed threshold
(`match.substring(1)`), one starting with `>` when above; an unparseable
threshold (JS `NaN`) compares false. -/
def evalClause (numValue : ℚ) (m : List Char) : Bool :=
  if startsWithChars m ['<'] then
    match parseFloatQ (m.drop 1) with
    | some threshold => numValue < threshold
    | none => false
  else if startsWithChars m ['>'] then
    match parseFloatQ (m.drop 1) with
    | some threshold => threshold < numValue
    | none => false
  else false

/-- `isInCriticalRange(parameter, value)` from the testing-logic module:
presence expressions first, then numeric parsing of the value, then the
two-sided (`<` and `>`) pattern, then the one-sided `>` / `<` patterns
(threshold read up to the first space), else `false`. -/
def isInCriticalRange (parameter : TestParameter) (value : JsValue) : Bool :=
  let cr := parameter.critical_range.data
  if containsSub ("presence".data) (cr.map Char.toLower) then
    let val := (jsToChars value).map Char.toLower
    val = "present".data || val = "positive".data || val = "yes".data ||
      val = "1".data || val = "true".data
  else
    match parseNumericValue value with
    | none => false
    | some numValue =>
      if cr.contains '<' && cr.contains '>' then
        (extractMatches cr).any (evalClause numValue)
      else if startsWithChars cr ['>'] then
        match parseFloatQ ((cr.drop 1).takeWhile (fun c => c ≠ ' ')) with
        | some threshold => threshold < numValue
        | none => false
      else if startsWithChars cr ['<'] then
        match parseFloatQ ((cr.drop 1).takeWhile (fun c => c ≠ ' ')) with
        | some threshold => numValue < threshold
        | none => false
      else false

/-! ### `getRiskLevel` (testing-logic module) -/

/-- `getRiskLevel(parameter, value)`: `low` outside the critical range;
inside it, `high` for confidence ≥ 0.8, `medium` for confidence ≥ 0.5, and
`medium` again below 0.5. -/
def getRiskLevel (parameter : TestParameter) (value : JsValue) : RiskLevel :=
  let isInCritical := isInCriticalRange parameter value
  let confidence := parameter.confidence_score
  if !isInCritical then .low
  else if 0.8 ≤ confidence then .high
  else if 0.5 ≤ confidence then .medium
  else .medium

/-! ### `analyzeTestResults` (testing-logic module) -/

/-- Body of the `kit.parameters.forEach` callback in `analyzeTestResults`:
the matching `ParameterValue` (JS `Array.prototype.find`) turned into a
`TestResult`, or `none` when the parameter has no submitted value. -/
def matchResult (parameterValues : List ParameterValue)
    (parameter : TestParameter) : Option TestResult :=
  (parameterValues.find? (fun pv => pv.name = parameter.name)).map
    (fun paramValue =>
      { parameter := parameter
        value := paramValue.value
        isInCriticalRange := isInCriticalRange parameter paramValue.value
        riskLevel := getRiskLevel parameter paramValue.value })

/-- Loop state of `analyzeTestResults`: the `results` array and the
`totalConfidence` / `highRiskCount` / `mediumRiskCount` accumulators. -/
structure AnalyzeAcc where
  results : List TestResult
  totalConfidence : ℚ
  highRiskCount : Nat
  mediumRiskCount : Nat
deriving DecidableEq, Repr

/-- One iteration of the `forEach` loop in `analyzeTestResults`. -/
def analyzeStep (parameterValues : List ParameterValue) (acc : AnalyzeAcc)
    (parameter : TestParameter) : AnalyzeAcc :=
  match matchResult parameterValues parameter with
  | none => acc
  | some r =>
    { results := acc.results ++ [r]
      totalConfidence := acc.totalConfidence + parameter.confidence_score
      highRiskCount :=
        if r.riskLevel = .high then acc.highRiskCount + 1 else acc.highRiskCount
      mediumRiskCount :=
        if r.riskLevel = .high then acc.mediumRiskCount
        else if r.riskLevel = .medium then acc.mediumRiskCount + 1
        else acc.mediumRiskCount }

/-- `analyzeTestResults(kit, parameterValues)`: run the loop over the kit's
parameters, then derive `overallRisk` from the counters and
`averageConfidence` from the total. -/
def analyzeTestResults (kit : TestingKit)
    (parameterValues : List ParameterValue) : KitTestResult :=
  let acc := kit.parameters.foldl (analyzeStep parameterValues) ⟨[], 0, 0, 0⟩
  let overallRisk : RiskLevel :=
    if acc.highRiskCount > 0 then .high
    else if acc.mediumRiskCount > 0 then .medium
    else .low
  let averageConfidence : ℚ :=
    if acc.results.length > 0 then acc.totalConfidence / acc.results.length
    else 0
  { kit := kit
    results := acc.results
    overallRisk := overallRisk
    confidence := averageConfidence }

/-! ### `calculateRiskLevel` and `getRiskCategory`
(`src/shared/utils/risk-calculation.ts`) -/

/-- The `severityMultipliers` record literal in `calculateRiskLevel`. -/
def severityMultipliers (symptom : String) : Option ℚ :=
  if symptom = "Diarrhea" then some 1.2
  else if symptom = "Vomiting" then some 1.3
  else if symptom = "Fever" then some 1.4
  else if symptom = "Abdominal pain" then some 1.1
  else if symptom = "Skin rashes" then some 1.15
  else if symptom = "Other" then some 1.1
  else none

/-- `calculateRiskLevel(affectedCount, symptoms)`: base risk from the
affected-count bracket, symptom multiplier accumulated over the `forEach`
loop, result rounded and capped at 100. -/
def calculateRiskLevel (affectedCount : ℚ) (symptoms : List String) : ℤ :=
  let baseRisk : ℚ :=
    if affectedCount ≤ 1 then 10
    else if affectedCount ≤ 5 then 25
    else if affectedCount ≤ 15 then 40
    else if affectedCount ≤ 30 then 55
    else if affectedCount ≤ 50 then 65
    else if affectedCount ≤ 100 then 75
    else 83
  let symptomMultiplier : ℚ :=
    symptoms.foldl (fun m symptom =>
      match severityMultipliers symptom with
      | some v => m + (v - 1) * 0.5
      | none => m) 1.0
  min 100 (jsRound (baseRisk * symptomMultiplier))

/-- `getRiskCategory(riskPercentage)`. -/
def getRiskCategory (riskPercentage : ℚ) : String :=
  if 70 ≤ riskPercentage then "High Risk"
  else if 40 ≤ riskPercentage then "Medium Risk"
  else "Low Risk"

/-! ### `calculateWaterTestRisk` (`src/shared/utils/risk-calculation.ts`) -/

/-- The fields of the `testResults : any` argument that
`calculateWaterTestRisk` reads.  `results := none` models an object whose
`results` field is absent; the outer `Option` models a missing object. -/
structure KitTestInput where
  results : Option (List TestResult)
  overallRisk : String
  confidence : ℚ
deriving DecidableEq, Repr

/-- `calculateWaterTestRisk(testResults)`: `0` when the input or its
`results` array is missing; otherwise tier baseline × critical-parameter
multiplier × confidence adjustment, rounded and capped at 100. -/
def calculateWaterTestRisk : Option KitTestInput → ℤ
  | none => 0
  | some testResults =>
    match testResults.results with
    | none => 0
    | some results =>
      let criticalCount := (results.filter (fun r => r.isInCriticalRange)).length
      let totalParameters := results.length
      let baseRisk : ℚ :=
        if testResults.overallRisk = "high" then 75
        else if testResults.overallRisk = "medium" then 45
        else if testResults.overallRisk = "low" then 15
        else 30
      let criticalRatio : ℚ :=
        if totalParameters > 0 then (criticalCount : ℚ) / (totalParameters : ℚ)
        else 0
      let criticalMultiplier : ℚ := 1 + criticalRatio * 0.5
      let confidenceAdjustment : ℚ := 1 + (1 - testResults.confidence) * 0.2
      min 100 (jsRound (baseRisk * criticalMultiplier * confidenceAdjustment))

/-! ### Spec-side formulations, used to state the claims -/

/-- Spec reading of an extracted two-sided clause: `<N` holds when the value
is below `N`, `>N` when above (a clause whose threshold does not parse holds
of no value). -/
def ClauseHolds (numValue : ℚ) (m : List Char) : Prop :=
  (∃ t T, m = '<' :: t ∧ parseFloatQ t = some T ∧ numValue < T) ∨
  (∃ t T, m = '>' :: t ∧ parseFloatQ t = some T ∧ T < numValue)

/-- Spec base-risk bracket table of the outbreak scorer (inclusive upper
bounds). -/
def bracketBase (affectedCount : ℚ) : ℚ :=
  if affectedCount ≤ 1 then 10
  else if affectedCount ≤ 5 then 25
  else if affectedCount ≤ 15 then 40
  else if affectedCount ≤ 30 then 55
  else if affectedCount ≤ 50 then 65
  else if affectedCount ≤ 100 then 75
  else 83

/-- Spec symptom bonus: half the nominal severity bump for a recognized
symptom, nothing for an unrecognized one. -/
def symptomBonus (symptom : String) : ℚ :=
  match severityMultipliers symptom with
  | some v => (v - 1) * 0.5
  | none => 0

/-- Spec baseline from the overall tier string. -/
def tierBaseline (overallRisk : String) : ℚ :=
  if overallRisk = "high" then 75
  else if overallRisk = "medium" then 45
  else if overallRisk = "low" then 15
  else 30

/-- Spec critical ratio: the fraction of results flagged in-critical-range,
`0` for an empty result list. -/
def criticalRatio (results : List TestResult) : ℚ :=
  if 0 < results.length then
    ((results.filter (fun r => r.isInCriticalRange)).length : ℚ) / (results.length : ℚ)
  else 0

/-! ### Catalog entries (from the `testingKits` catalog module) -/

/-- `pH` parameter of the Field Test Kit (FTK). -/
def pH_FTK : TestParameter :=
  ⟨"pH", "<6.5 or >8.5", "Reduces disinfection efficacy",
    ["Cholera", "Giardia", "Cryptosporidiosis"], 0.65⟩

/-- `Turbidity` parameter of the Field Test Kit (FTK). -/
def turbidity_FTK : TestParameter :=
  ⟨"Turbidity", ">1 NTU", "Microbes shielded from disinfectants",
    ["Diarrhea", "Dysentery", "Hepatitis A"], 0.85⟩

/-- `Chlorine` parameter of the Field Test Kit (FTK). -/
def chlorine_FTK : TestParameter :=
  ⟨"Chlorine", "<0.2 mg/L", "Insufficient disinfection",
    ["Typhoid", "Cholera", "E. coli infections"], 0.90⟩

/-- `E. coli` parameter of the Bacteriological Field Test Kit. -/
def ecoli_BFTK : TestParameter :=
  ⟨"E. coli", "Presence in 100 mL", "Direct fecal pathogen indicator",
    ["Diarrhea", "Hemolytic Uremic Syndrome"], 0.98⟩

/-- Two-parameter kit (pH and Chlorine of the FTK catalog entry), the
end-to-end scenario of the spec. -/
def scenarioKit : TestingKit :=
  ⟨"Field Test Kit (FTK)", "Approximate value range (via color chart)",
    [pH_FTK, chlorine_FTK]⟩

/-- Scenario readings: pH 9.0 (critical, medium confidence), Chlorine 0.5
(not critical). -/
def scenarioValues : List ParameterValue :=
  [⟨"pH", .num 9⟩, ⟨"Chlorine", .num 0.5⟩]

/-! ## Helper lemmas -/

theorem startsWithChars_single_iff (c : Char) (l : List Char) :
    startsWithChars l [c] = true ↔ ∃ t, l = c :: t := by
  cases l with
  | nil => simp [startsWithChars]
  | cons a t => simp [startsWithChars, eq_comm]

theorem evalClause_eq_true_iff (n : ℚ) (m : List Char) :
    evalClause n m = true ↔ ClauseHolds n m := by
  cases m with
  | nil => simp [evalClause, startsWithChars, ClauseHolds]
  | cons c t =>
    rcases eq_or_ne c '<' with rfl | hlt
    · simp only [evalClause, startsWithChars]
      cases h : parseFloatQ t with
      | none => simp [ClauseHolds, h]
      | some T => simp [ClauseHolds, h]
    · rcases eq_or_ne c '>' with rfl | hgt
      · simp only [evalClause, startsWithChars]
        cases h : parseFloatQ t with
        | none => simp [ClauseHolds, h]
        | some T => simp [ClauseHolds, h]
      · simp [evalClause, startsWithChars, hlt, hgt, ClauseHolds,
          Ne.symm hlt, Ne.symm hgt]

theorem isInCriticalRange_of_parse_none (p : TestParameter) (v : JsValue)
    (hp : containsSub ("presence".data) (p.critical_range.data.map Char.toLower) = false)
    (hv : parseNumericValue v = none) :
    isInCriticalRange p v = false := by
  unfold isInCriticalRange
  rw [if_neg (by simp [hp]), hv]

theorem isInCriticalRange_of_parse_some (p : TestParameter) (v : JsValue) (n : ℚ)
    (hp : containsSub ("presence".data) (p.critical_range.data.map Char.toLower) = false)
    (hv : parseNumericValue v = some n) :
    isInCriticalRange p v =
      (if (p.critical_range.data.contains '<' && p.critical_range.data.contains '>') = true then
        (extractMatches p.critical_range.data).any (evalClause n)
      else if startsWithChars p.critical_range.data ['>'] = true then
        (match parseFloatQ ((p.critical_range.data.drop 1).takeWhile (fun c => c ≠ ' ')) with
          | some threshold => (threshold < n : Bool)
          | none => false)
      else if startsWithChars p.critical_range.data ['<'] = true then
        (match parseFloatQ ((p.critical_range.data.drop 1).takeWhile (fun c => c ≠ ' ')) with
          | some threshold => (n < threshold : Bool)
          | none => false)
      else false) := by
  unfold isInCriticalRange
  rw [if_neg (by simp [hp]), hv]

/-! ## Claims -/

/-- **C1.** For every range expression containing both `<` and `>` (and not
a presence expression), `isInCriticalRange` is true iff the parsed value
satisfies at least one extracted `<N` / `>N` clause (clauses OR-ed); for an
expression starting with `>` or `<` alone it compares the value against the
number following the operator up to the first space; the examples
`evaluateCriticalRange("<6.5 or >8.5", ·)` give false at 7, true at 6 and
at 9; and a value that fails numeric parsing always yields false. -/
theorem isInCriticalRange_numeric_range_spec :
    (∀ (p : TestParameter) (v : JsValue),
      containsSub ("presence".data) (p.critical_range.data.map Char.toLower) = false →
      p.critical_range.data.contains '<' = true →
      p.critical_range.data.contains '>' = true →
      (isInCriticalRange p v = true ↔
        ∃ n, parseNumericValue v = some n ∧
          ∃ m ∈ extractMatches p.critical_range.data, ClauseHolds n m)) ∧
    (∀ (p : TestParameter) (v : JsValue),
      containsSub ("presence".data) (p.critical_range.data.map Char.toLower) = false →
      (p.critical_range.data.contains '<' && p.critical_range.data.contains '>') = false →
      startsWithChars p.critical_range.data ['>'] = true →
      (isInCriticalRange p v = true ↔
        ∃ n T, parseNumericValue v = some n ∧
          parseFloatQ ((p.critical_range.data.drop 1).takeWhile (fun c => c ≠ ' ')) = some T ∧
          T < n)) ∧
    (∀ (p : TestParameter) (v : JsValue),
      containsSub ("presence".data) (p.critical_range.data.map Char.toLower) = false →
      (p.critical_range.data.contains '<' && p.critical_range.data.contains '>') = false →
      startsWithChars p.critical_range.data ['<'] = true →
      (isInCriticalRange p v = true ↔
        ∃ n T, parseNumericValue v = some n ∧
          parseFloatQ ((p.critical_range.data.drop 1).takeWhile (fun c => c ≠ ' ')) = some T ∧
          n < T)) ∧
    (∀ (p : TestParameter) (v : JsValue),
      containsSub ("presence".data) (p.critical_range.data.map Char.toLower) = false →
      parseNumericValue v = none →
      isInCriticalRange p v = false) ∧
    (isInCriticalRange pH_FTK (.num 7) = false ∧
     isInCriticalRange pH_FTK (.num 6) = true ∧
     isInCriticalRange pH_FTK (.num 9) = true) := by
  refine ⟨?_, ?_, ?_, ?_, by decide, by decide, by decide⟩
  · intro p v hp h1 h2
    have hcond : (p.critical_range.data.contains '<' &&
        p.critical_range.data.contains '>') = true := by rw [h1, h2]; rfl
    cases hv : parseNumericValue v with
    | none => simp [isInCriticalRange_of_parse_none p v hp hv]
    | some n =>
      rw [isInCriticalRange_of_parse_some p v n hp hv, if_pos hcond]
      simp [List.any_eq_true, evalClause_eq_true_iff]
  · intro p v hp hb hs
    cases hv : parseNumericValue v with
    | none => simp [isInCriticalRange_of_parse_none p v hp hv]
    | some n =>
      rw [isInCriticalRange_of_parse_some p v n hp hv, if_neg (by rw [hb]; exact Bool.false_ne_true), if_pos hs]
      cases hT : parseFloatQ ((p.critical_range.data.drop 1).takeWhile (fun c => c ≠ ' ')) with
      | none => simp [hT]
      | some T => simp [hT]
  · intro p v hp hb hs
    obtain ⟨t, hcr⟩ := (startsWithChars_single_iff _ _).mp hs
    have hgt : ¬ startsWithChars p.critical_range.data ['>'] = true := by
      rw [hcr]; simp [startsWithChars]
    cases hv : parseNumericValue v with
    | none => simp [isInCriticalRange_of_parse_none p v hp hv]
    | some n =>
      rw [isInCriticalRange_of_parse_some p v n hp hv, if_neg (by rw [hb]; exact Bool.false_ne_true),
        if_neg hgt, if_pos hs]
      cases hT : parseFloatQ ((p.critical_range.data.drop 1).takeWhile (fun c => c ≠ ' ')) with
      | none => simp [hT]
      | some T => simp [hT]
  · intro p v hp hv
    exact isInCriticalRange_of_parse_none p v hp hv

/-- Witness for C1: the two-sided pH expression at 6, the one-sided `>`
turbidity expression at 2, the one-sided `<` chlorine expression at 0.1,
and an unparseable value. -/
theorem isInCriticalRange_numeric_range_spec_witness :
    isInCriticalRange pH_FTK (.num 6) = true ∧
    isInCriticalRange turbidity_FTK (.num 2) = true ∧
    isInCriticalRange chlorine_FTK (.num 0.1) = true ∧
    isInCriticalRange chlorine_FTK (.str "abc") = false := by
  refine ⟨?_, ?_, ?_, ?_⟩
  · exact (isInCriticalRange_numeric_range_spec.1 pH_FTK (.num 6)
      (by decide) (by decide) (by decide)).mpr
      ⟨6, by decide, ['<', '6', '.', '5'], by decide,
        Or.inl ⟨['6', '.', '5'], 6.5, rfl, by decide, by decide⟩⟩
  · exact (isInCriticalRange_numeric_range_spec.2.1 turbidity_FTK (.num 2)
      (by decide) (by decide) (by decide)).mpr ⟨2, 1, by decide, by decide, by decide⟩
  · exact (isInCriticalRange_numeric_range_spec.2.2.1 chlorine_FTK (.num 0.1)
      (by decide) (by decide) (by decide)).mpr ⟨0.1, 0.2, by decide, by decide, by decide⟩
  · exact isInCriticalRange_numeric_range_spec.2.2.2.1 chlorine_FTK (.str "abc")
      (by decide) (by decide)

/-- **C2.** For every presence-style range expression, `isInCriticalRange`
ignores numeric parsing: it is true iff the value's lowercased text form is
one of `present`, `positive`, `yes`, `1`, `true` (the number 1 included via
its string form), and false on everything else. -/
theorem isInCriticalRange_presence_spec :
    (∀ (p : TestParameter) (v : JsValue),
      containsSub ("presence".data) (p.critical_range.data.map Char.toLower) = true →
      (isInCriticalRange p v = true ↔
        ((jsToChars v).map Char.toLower) ∈
          ["present".data, "positive".data, "yes".data, "1".data, "true".data])) ∧
    (isInCriticalRange ecoli_BFTK (.str "present") = true ∧
     isInCriticalRange ecoli_BFTK (.str "absent") = false ∧
     isInCriticalRange ecoli_BFTK (.str "1") = true ∧
     isInCriticalRange ecoli_BFTK (.num 1) = true ∧
     isInCriticalRange ecoli_BFTK (.str "negative") = false ∧
     isInCriticalRange ecoli_BFTK (.str "0") = false ∧
     isInCriticalRange ecoli_BFTK (.num 0) = false ∧
     isInCriticalRange ecoli_BFTK (.str "false") = false ∧
     isInCriticalRange ecoli_BFTK (.str "unrecognized text") = false) := by
  refine ⟨?_, by decide, by decide, by decide, by decide, by decide, by decide,
    by decide, by decide, by decide⟩
  intro p v hp
  simp only [isInCriticalRange, hp, if_true, List.mem_cons, List.mem_singleton,
    Bool.or_eq_true, decide_eq_true_eq]
  tauto

/-- Witness for C2: the catalog's E. coli presence parameter at the number
1, whose string form `"1"` is a presence token. -/
theorem isInCriticalRange_presence_spec_witness :
    isInCriticalRange ecoli_BFTK (.num 1) = true :=
  (isInCriticalRange_presence_spec.1 ecoli_BFTK (.num 1) (by decide)).mpr (by decide)

/-- **C3.** `getRiskLevel` returns `low` exactly when the value is outside
the critical range (for any confidence); in range it returns `high` iff
confidence ≥ 0.8 and `medium` otherwise (including confidence < 0.5); it
never returns `high` out of range nor `low` in range. -/
theorem getRiskLevel_spec :
    ∀ (p : TestParameter) (v : JsValue),
      (isInCriticalRange p v = false → getRiskLevel p v = .low) ∧
      (isInCriticalRange p v = true →
        ((getRiskLevel p v = .high ↔ 0.8 ≤ p.confidence_score) ∧
         (getRiskLevel p v = .medium ↔ p.confidence_score < 0.8))) ∧
      (getRiskLevel p v = .high → isInCriticalRange p v = true) ∧
      (getRiskLevel p v = .low → isInCriticalRange p v = false) := by
  intro p v
  by_cases hc : isInCriticalRange p v = true
  · have hlvl : getRiskLevel p v =
        (if (0.8 : ℚ) ≤ p.confidence_score then .high else .medium) := by
      unfold getRiskLevel
      rw [hc]
      by_cases h5 : (0.5 : ℚ) ≤ p.confidence_score <;>
        by_cases h8 : (0.8 : ℚ) ≤ p.confidence_score <;> simp [h5, h8]
    by_cases h8 : (0.8 : ℚ) ≤ p.confidence_score <;>
      simp [hlvl, hc, h8, not_le.mp, not_le]
  · simp only [Bool.not_eq_true] at hc
    have hlvl : getRiskLevel p v = .low := by
      unfold getRiskLevel
      rw [hc]
      simp
    simp [hlvl, hc]

/-- Witness for C3: chlorine (confidence 0.90) out of range is `low`, in
range is `high`; fluoride-style low confidence (0.30) in range is `medium`. -/
theorem getRiskLevel_spec_witness :
    getRiskLevel chlorine_FTK (.num 0.5) = .low ∧
    getRiskLevel chlorine_FTK (.num 0.1) = .high ∧
    getRiskLevel ⟨"Fluoride", ">1.5 mg/L", "Not microbial, chronic toxicity",
      ["Dental Fluorosis", "Skeletal Fluorosis"], 0.30⟩ (.num 2) = .medium := by
  refine ⟨?_, ?_, ?_⟩
  · exact (getRiskLevel_spec chlorine_FTK (.num 0.5)).1 (by decide)
  · exact ((getRiskLevel_spec chlorine_FTK (.num 0.1)).2.1 (by decide)).1.mpr (by decide)
  · exact ((getRiskLevel_spec _ (.num 2)).2.1 (by decide)).2.mpr (by decide)

/-- **C7.** `getRiskCategory` returns `High Risk` iff the percentage is
≥ 70, `Medium Risk` iff it is in `[40, 70)`, and `Low Risk` otherwise, with
exact boundaries at 39/40 and 69/70, and resolves out-of-range inputs to the
nearest band without failing. -/
theorem getRiskCategory_spec :
    (∀ riskPercentage : ℚ,
      (getRiskCategory riskPercentage = "High Risk" ↔ 70 ≤ riskPercentage) ∧
      (getRiskCategory riskPercentage = "Medium Risk" ↔
        (40 ≤ riskPercentage ∧ riskPercentage < 70)) ∧
      (getRiskCategory riskPercentage = "Low Risk" ↔ riskPercentage < 40)) ∧
    getRiskCategory 69 = "Medium Risk" ∧
    getRiskCategory 70 = "High Risk" ∧
    getRiskCategory 39 = "Low Risk" ∧
    getRiskCategory 40 = "Medium Risk" ∧
    getRiskCategory (-5) = "Low Risk" ∧
    getRiskCategory 150 = "High Risk" := by
  refine ⟨?_, by decide, by decide, by decide, by decide, by decide, by decide⟩
  intro q
  unfold getRiskCategory
  split_ifs with h70 h40
  · exact ⟨iff_of_true rfl h70,
      iff_of_false (by decide) (fun h => absurd h70 (not_le.mpr h.2)),
      iff_of_false (by decide) (not_lt.mpr (by linarith))⟩
  · exact ⟨iff_of_false (by decide) h70,
      iff_of_true rfl ⟨h40, not_le.mp h70⟩,
      iff_of_false (by decide) (not_lt.mpr h40)⟩
  · exact ⟨iff_of_false (by decide) h70,
      iff_of_false (by decide) (fun h => h40 h.1),
      iff_of_true rfl (not_le.mp h40)⟩

theorem symptomFold_eq (symptoms : List String) (m : ℚ) :
    symptoms.foldl (fun m symptom =>
      match severityMultipliers symptom with
      | some v => m + (v - 1) * 0.5
      | none => m) m = m + (symptoms.map symptomBonus).sum := by
  induction symptoms generalizing m with
  | nil => simp
  | cons s t ih =>
    simp only [List.foldl_cons, List.map_cons, List.sum_cons]
    cases h : severityMultipliers s with
    | none => rw [ih]; simp [symptomBonus, h]
    | some v => rw [ih]; simp only [symptomBonus, h]; ring

theorem calculateRiskLevel_eq_formula (affectedCount : ℚ) (symptoms : List String) :
    calculateRiskLevel affectedCount symptoms =
      min 100 (jsRound (bracketBase affectedCount *
        (1 + (symptoms.map symptomBonus).sum))) := by
  unfold calculateRiskLevel bracketBase
  rw [symptomFold_eq]
  norm_num

/-- **C5.** The outbreak scorer equals
`min(100, round(base · (1 + Σ (severity−1)·0.5)))` with the bracketed base
table; unrecognized symptoms contribute nothing; and the spec's three
worked examples hold. -/
theorem calculateRiskLevel_spec :
    (∀ (affectedCount : ℕ) (symptoms : List String),
      calculateRiskLevel affectedCount symptoms =
        min 100 (jsRound (bracketBase affectedCount *
          (1 + (symptoms.map symptomBonus).sum)))) ∧
    (∀ (affectedCount : ℚ) (symptoms : List String) (s : String),
      severityMultipliers s = none →
      calculateRiskLevel affectedCount (s :: symptoms) =
        calculateRiskLevel affectedCount symptoms) ∧
    (calculateRiskLevel 1 [] = 10 ∧
     calculateRiskLevel 10 ["Fever"] = 48 ∧
     calculateRiskLevel 200 ["Diarrhea", "Vomiting", "Fever"] = 100) := by
  refine ⟨?_, ?_, by decide, by decide, by decide⟩
  · intro n symptoms
    exact calculateRiskLevel_eq_formula n symptoms
  · intro affectedCount symptoms s hs
    rw [calculateRiskLevel_eq_formula, calculateRiskLevel_eq_formula]
    simp [symptomBonus, hs]

/-- Witness for C5: an unrecognized symptom string leaves the score of the
spec's first example unchanged, and the bracket formula reproduces it. -/
theorem calculateRiskLevel_spec_witness :
    calculateRiskLevel 1 ["headache"] = calculateRiskLevel 1 [] ∧
    calculateRiskLevel 3 [] =
      min 100 (jsRound (bracketBase ((3 : ℕ) : ℚ) *
        (1 + (([] : List String).map symptomBonus).sum))) :=
  ⟨calculateRiskLevel_spec.2.1 1 [] "headache" (by decide),
   calculateRiskLevel_spec.1 3 []⟩

/-- **C10.** The symptom bonus is summed over every entry of the array, so a
recognized symptom occurring `k` times contributes `k · (severity−1) · 0.5`;
in particular `calculateRiskLevel(1, ['Fever','Fever']) = 14` strictly
exceeds `calculateRiskLevel(1, ['Fever']) = 12`: the output depends on
multiplicity, not only on the set of distinct symptoms. -/
theorem calculateRiskLevel_multiplicity_spec :
    (∀ (affectedCount : ℚ) (symptoms : List String) (s : String) (v : ℚ),
      severityMultipliers s = some v →
      ∀ k : ℕ,
        calculateRiskLevel affectedCount (List.replicate k s ++ symptoms) =
          min 100 (jsRound (bracketBase affectedCount *
            (1 + ((k : ℚ) * ((v - 1) * 0.5) +
              (symptoms.map symptomBonus).sum))))) ∧
    (calculateRiskLevel 1 ["Fever", "Fever"] = 14 ∧
     calculateRiskLevel 1 ["Fever"] = 12 ∧
     calculateRiskLevel 1 ["Fever"] < calculateRiskLevel 1 ["Fever", "Fever"]) := by
  refine ⟨?_, by decide, by decide, by decide⟩
  intro affectedCount symptoms s v hs k
  rw [calculateRiskLevel_eq_formula]
  simp only [List.map_append, List.sum_append, List.map_replicate,
    List.sum_replicate, nsmul_eq_mul]
  have hb : symptomBonus s = (v - 1) * 0.5 := by simp [symptomBonus, hs]
  rw [hb]

/-- Witness for C10: two occurrences of Fever at count 1 give the bracket
formula with `k = 2`. -/
theorem calculateRiskLevel_multiplicity_spec_witness :
    calculateRiskLevel 1 (List.replicate 2 "Fever" ++ []) =
      min 100 (jsRound (bracketBase 1 *
        (1 + ((2 : ℚ) * ((1.4 - 1) * 0.5) +
          (([] : List String).map symptomBonus).sum)))) :=
  calculateRiskLevel_multiplicity_spec.1 1 [] "Fever" 1.4 (by decide) 2

theorem calculateWaterTestRisk_some_eq (t : KitTestInput) (rs : List TestResult)
    (h : t.results = some rs) :
    calculateWaterTestRisk (some t) =
      min 100 (jsRound (tierBaseline t.overallRisk *
        (1 + criticalRatio rs * 0.5) * (1 + (1 - t.confidence) * 0.2))) := by
  obtain ⟨res, tier, conf⟩ := t
  replace h : res = some rs := h
  subst h
  rfl

theorem criticalRatio_nonneg (rs : List TestResult) : 0 ≤ criticalRatio rs := by
  unfold criticalRatio
  split_ifs with h
  · positivity
  · exact le_refl 0

theorem criticalRatio_le_one (rs : List TestResult) : criticalRatio rs ≤ 1 := by
  unfold criticalRatio
  split_ifs with h
  · rw [div_le_one (by exact_mod_cast h)]
    exact_mod_cast List.length_filter_le _ _
  · norm_num

theorem tierBaseline_ge_15 (tier : String) : 15 ≤ tierBaseline tier := by
  unfold tierBaseline
  split_ifs <;> norm_num

theorem jsRound_mono {a b : ℚ} (h : a ≤ b) : jsRound a ≤ jsRound b :=
  Int.floor_le_floor (by linarith)

theorem le_jsRound_of_le {z : ℤ} {a : ℚ} (h : (z : ℚ) ≤ a) : z ≤ jsRound a :=
  Int.le_floor.mpr (by linarith)

/-- **C6.** `calculateWaterTestRisk` returns
`min(100, round(baseline · (1 + ratio·0.5) · (1 + (1−confidence)·0.2)))`
with baseline 75/45/15 by tier and 30 for an unrecognized tier, the ratio
being the fraction of in-critical-range results (0 for an empty list); a
missing input or missing results field gives 0; and the value always lies
in [0, 100]. -/
theorem calculateWaterTestRisk_spec :
    (calculateWaterTestRisk none = 0) ∧
    (∀ t : KitTestInput, t.results = none → calculateWaterTestRisk (some t) = 0) ∧
    (∀ (t : KitTestInput) (rs : List TestResult), t.results = some rs →
      calculateWaterTestRisk (some t) =
        min 100 (jsRound (tierBaseline t.overallRisk *
          (1 + criticalRatio rs * 0.5) * (1 + (1 - t.confidence) * 0.2)))) ∧
    (tierBaseline "high" = 75 ∧ tierBaseline "medium" = 45 ∧
     tierBaseline "low" = 15 ∧
     (∀ tier : String, tier ≠ "high" → tier ≠ "medium" → tier ≠ "low" →
       tierBaseline tier = 30) ∧
     criticalRatio [] = 0) ∧
    (∀ t : KitTestInput, 0 ≤ t.confidence → t.confidence ≤ 1 →
      0 ≤ calculateWaterTestRisk (some t) ∧ calculateWaterTestRisk (some t) ≤ 100) := by
  refine ⟨rfl, ?_, calculateWaterTestRisk_some_eq,
    ⟨by decide, by decide, by decide, ?_, by decide⟩, ?_⟩
  · intro t h
    obtain ⟨res, tier, conf⟩ := t
    replace h : res = none := h
    subst h
    rfl
  · intro tier h1 h2 h3
    unfold tierBaseline
    rw [if_neg h1, if_neg h2, if_neg h3]
  · intro t hc0 hc1
    cases hres : t.results with
    | none =>
      obtain ⟨res, tier, conf⟩ := t
      replace hres : res = none := hres
      subst hres
      have h0 : calculateWaterTestRisk (some ⟨none, tier, conf⟩) = 0 := rfl
      rw [h0]
      exact ⟨le_refl 0, by norm_num⟩
    | some rs =>
      rw [calculateWaterTestRisk_some_eq t rs hres]
      have hB := tierBaseline_ge_15 t.overallRisk
      have hM : 1 ≤ 1 + criticalRatio rs * 0.5 := by
        have := criticalRatio_nonneg rs
        linarith
      have hA : 1 ≤ 1 + (1 - t.confidence) * 0.2 := by linarith
      have hprod : (0 : ℚ) ≤ tierBaseline t.overallRisk *
          (1 + criticalRatio rs * 0.5) * (1 + (1 - t.confidence) * 0.2) :=
        mul_nonneg (mul_nonneg (by linarith) (by linarith)) (by linarith)
      exact ⟨le_min (by norm_num) (le_jsRound_of_le (by push_cast; linarith)),
        min_le_left _ _⟩

/-- Witness for C6: the spec's end-to-end scenario evaluates to 59 through
the formula, and a concrete in-range input stays inside [0, 100]. -/
theorem calculateWaterTestRisk_spec_witness :
    calculateWaterTestRisk (some
      ⟨some (analyzeTestResults scenarioKit scenarioValues).results, "medium",
        (analyzeTestResults scenarioKit scenarioValues).confidence⟩) = 59 ∧
    (0 ≤ calculateWaterTestRisk (some ⟨some [], "low", 1⟩) ∧
     calculateWaterTestRisk (some ⟨some [], "low", 1⟩) ≤ 100) :=
  ⟨(calculateWaterTestRisk_spec.2.2.1 _ _ rfl).trans (by decide),
   calculateWaterTestRisk_spec.2.2.2.2 _ (by decide) (by decide)⟩

/-- **C8.** Holding tier and confidence fixed, `calculateWaterTestRisk` is
non-decreasing in the critical ratio; holding tier and results fixed, it is
non-decreasing as confidence decreases. -/
theorem calculateWaterTestRisk_monotone_spec :
    (∀ (t₁ t₂ : KitTestInput) (rs₁ rs₂ : List TestResult),
      t₁.results = some rs₁ → t₂.results = some rs₂ →
      t₁.overallRisk = t₂.overallRisk → t₁.confidence = t₂.confidence →
      0 ≤ t₁.confidence → t₁.confidence ≤ 1 →
      criticalRatio rs₁ ≤ criticalRatio rs₂ →
      calculateWaterTestRisk (some t₁) ≤ calculateWaterTestRisk (some t₂)) ∧
    (∀ (t₁ t₂ : KitTestInput) (rs : List TestResult),
      t₁.results = some rs → t₂.results = some rs →
      t₁.overallRisk = t₂.overallRisk →
      t₂.confidence ≤ t₁.confidence →
      calculateWaterTestRisk (some t₁) ≤ calculateWaterTestRisk (some t₂)) := by
  constructor
  · intro t₁ t₂ rs₁ rs₂ h₁ h₂ htier hconf hc0 hc1 hr
    rw [calculateWaterTestRisk_some_eq t₁ rs₁ h₁,
      calculateWaterTestRisk_some_eq t₂ rs₂ h₂, htier, hconf]
    refine min_le_min (le_refl _) (jsRound_mono ?_)
    have hc1' : t₂.confidence ≤ 1 := hconf ▸ hc1
    have hB : (0 : ℚ) ≤ tierBaseline t₂.overallRisk := by
      have := tierBaseline_ge_15 t₂.overallRisk
      linarith
    have hA : (0 : ℚ) ≤ 1 + (1 - t₂.confidence) * 0.2 := by linarith
    nlinarith [mul_nonneg (mul_nonneg hB hA) (sub_nonneg.mpr hr)]
  · intro t₁ t₂ rs h₁ h₂ htier hconf
    rw [calculateWaterTestRisk_some_eq t₁ rs h₁,
      calculateWaterTestRisk_some_eq t₂ rs h₂, htier]
    refine min_le_min (le_refl _) (jsRound_mono ?_)
    have hB : (0 : ℚ) ≤ tierBaseline t₂.overallRisk := by
      have := tierBaseline_ge_15 t₂.overallRisk
      linarith
    have hM : (0 : ℚ) ≤ 1 + criticalRatio rs * 0.5 := by
      have := criticalRatio_nonneg rs
      linarith
    nlinarith [mul_nonneg (mul_nonneg hB hM) (sub_nonneg.mpr hconf)]

/-- A critical pH reading, as a concrete `TestResult`. -/
def criticalResult : TestResult := ⟨pH_FTK, .num 9, true, .medium⟩

/-- A non-critical chlorine reading, as a concrete `TestResult`. -/
def okResult : TestResult := ⟨chlorine_FTK, .num 0.5, false, .low⟩

/-- Witness for C8: raising the critical ratio from 0 to 1, and lowering
confidence from 0.9 to 0.775, both keep the risk from decreasing. -/
theorem calculateWaterTestRisk_monotone_spec_witness :
    calculateWaterTestRisk (some ⟨some [okResult], "medium", 0.775⟩) ≤
      calculateWaterTestRisk (some ⟨some [criticalResult], "medium", 0.775⟩) ∧
    calculateWaterTestRisk (some ⟨some [criticalResult], "medium", 0.9⟩) ≤
      calculateWaterTestRisk (some ⟨some [criticalResult], "medium", 0.775⟩) :=
  ⟨calculateWaterTestRisk_monotone_spec.1 _ _ [okResult] [criticalResult]
      rfl rfl rfl rfl (by decide) (by decide) (by decide),
   calculateWaterTestRisk_monotone_spec.2 _ _ [criticalResult]
      rfl rfl rfl (by decide)⟩

/-- **C9.** An input whose `results` field is a present-but-empty array is
not mapped to 0: the critical ratio is 0 and the result is
`min(100, round(baseline · (1 + (1−confidence)·0.2)))` — e.g. 18 for tier
`low` at confidence 0 — whereas a missing `results` field (or missing
input) yields 0, so the two cases give different outputs. -/
theorem calculateWaterTestRisk_empty_results_spec :
    (∀ (tier : String) (conf : ℚ),
      calculateWaterTestRisk (some ⟨some [], tier, conf⟩) =
        min 100 (jsRound (tierBaseline tier * (1 + (1 - conf) * 0.2)))) ∧
    (calculateWaterTestRisk (some ⟨some [], "low", 0⟩) = 18) ∧
    (calculateWaterTestRisk none = 0) ∧
    (∀ (tier : String) (conf : ℚ),
      calculateWaterTestRisk (some ⟨none, tier, conf⟩) = 0) ∧
    (∀ (tier : String) (conf : ℚ), 0 ≤ conf → conf ≤ 1 →
      calculateWaterTestRisk (some ⟨some [], tier, conf⟩) ≠ 0) ∧
    (∀ (tier : String) (conf : ℚ), 0 ≤ conf → conf ≤ 1 →
      calculateWaterTestRisk (some ⟨some [], tier, conf⟩) ≠
        calculateWaterTestRisk (some ⟨none, tier, conf⟩)) := by
  have hempty : ∀ (tier : String) (conf : ℚ),
      calculateWaterTestRisk (some ⟨some [], tier, conf⟩) =
        min 100 (jsRound (tierBaseline tier * (1 + (1 - conf) * 0.2))) := by
    intro tier conf
    rw [calculateWaterTestRisk_some_eq ⟨some [], tier, conf⟩ [] rfl]
    norm_num [criticalRatio]
  have hne : ∀ (tier : String) (conf : ℚ), 0 ≤ conf → conf ≤ 1 →
      calculateWaterTestRisk (some ⟨some [], tier, conf⟩) ≠ 0 := by
    intro tier conf h0 h1
    rw [hempty]
    have hB := tierBaseline_ge_15 tier
    have hA : 1 ≤ 1 + (1 - conf) * 0.2 := by linarith
    have hprod : (15 : ℚ) ≤ tierBaseline tier * (1 + (1 - conf) * 0.2) := by
      nlinarith
    have h15 : (15 : ℤ) ≤ min 100 (jsRound (tierBaseline tier * (1 + (1 - conf) * 0.2))) :=
      le_min (by norm_num) (le_jsRound_of_le (by push_cast; linarith))
    omega
  refine ⟨hempty, by decide, rfl, fun tier conf => rfl, hne, ?_⟩
  intro tier conf h0 h1
  intro hcontra
  exact hne tier conf h0 h1 hcontra

/-- Witness for C9: tier `high` at full confidence still gives a nonzero
score on an empty result array, and the empty-array formula applies. -/
theorem calculateWaterTestRisk_empty_results_spec_witness :
    calculateWaterTestRisk (some ⟨some [], "high", 1⟩) ≠ 0 ∧
    calculateWaterTestRisk (some ⟨some [], "low", 0⟩) =
      min 100 (jsRound (tierBaseline "low" * (1 + (1 - 0) * 0.2))) :=
  ⟨calculateWaterTestRisk_empty_results_spec.2.2.2.2.1 "high" 1 (by decide) (by decide),
   calculateWaterTestRisk_empty_results_spec.1 "low" 0⟩

theorem matchResult_eq_some_iff (pvs : List ParameterValue) (p : TestParameter)
    (r : TestResult) :
    matchResult pvs p = some r ↔
      ∃ pv, pvs.find? (fun pv => pv.name = p.name) = some pv ∧
        r = ⟨p, pv.value, isInCriticalRange p pv.value, getRiskLevel p pv.value⟩ := by
  unfold matchResult
  cases h : pvs.find? (fun pv => pv.name = p.name) with
  | none => simp
  | some pv => simp [eq_comm]

theorem matchResult_isSome (pvs : List ParameterValue) (p : TestParameter) :
    (matchResult pvs p).isSome = (pvs.find? (fun pv => pv.name = p.name)).isSome := by
  unfold matchResult
  cases h : pvs.find? (fun pv => pv.name = p.name) <;> rfl

theorem length_filterMap_matchResult (pvs : List ParameterValue)
    (l : List TestParameter) :
    (l.filterMap (matchResult pvs)).length =
      (l.filter (fun p => (pvs.find? (fun pv => pv.name = p.name)).isSome)).length := by
  induction l with
  | nil => rfl
  | cons p t ih =>
    rw [List.filterMap_cons, List.filter_cons]
    cases h : matchResult pvs p with
    | none =>
      have hfind : (pvs.find? (fun pv => pv.name = p.name)).isSome = false := by
        rw [← matchResult_isSome, h]
        rfl
      simp [hfind, ih]
    | some r =>
      have hfind : (pvs.find? (fun pv => pv.name = p.name)).isSome = true := by
        rw [← matchResult_isSome, h]
        rfl
      simp [hfind, ih]

theorem analyzeFoldl_spec (pvs : List ParameterValue) (l : List TestParameter)
    (acc : AnalyzeAcc) :
    (l.foldl (analyzeStep pvs) acc).results =
      acc.results ++ l.filterMap (matchResult pvs) ∧
    (l.foldl (analyzeStep pvs) acc).totalConfidence = acc.totalConfidence +
      ((l.filterMap (matchResult pvs)).map
        (fun r => r.parameter.confidence_score)).sum ∧
    (l.foldl (analyzeStep pvs) acc).highRiskCount = acc.highRiskCount +
      ((l.filterMap (matchResult pvs)).filter
        (fun r => r.riskLevel = RiskLevel.high)).length ∧
    (l.foldl (analyzeStep pvs) acc).mediumRiskCount = acc.mediumRiskCount +
      ((l.filterMap (matchResult pvs)).filter
        (fun r => r.riskLevel = RiskLevel.medium)).length := by
  induction l generalizing acc with
  | nil => simp
  | cons p t ih =>
    rw [List.foldl_cons, List.filterMap_cons]
    cases hm : matchResult pvs p with
    | none =>
      have hstep : analyzeStep pvs acc p = acc := by
        unfold analyzeStep
        rw [hm]
      rw [hstep]
      exact ih acc
    | some r =>
      have hpr : r.parameter = p := by
        rcases (matchResult_eq_some_iff pvs p r).mp hm with ⟨pv, _, hr⟩
        rw [hr]
      have hstep : analyzeStep pvs acc p = ⟨acc.results ++ [r],
          acc.totalConfidence + p.confidence_score,
          if r.riskLevel = RiskLevel.high then acc.highRiskCount + 1
          else acc.highRiskCount,
          if r.riskLevel = RiskLevel.high then acc.mediumRiskCount
          else if r.riskLevel = RiskLevel.medium then acc.mediumRiskCount + 1
          else acc.mediumRiskCount⟩ := by
        unfold analyzeStep
        rw [hm]
      rw [hstep]
      refine ⟨?_, ?_, ?_, ?_⟩
      · rw [(ih _).1]
        simp
      · rw [(ih _).2.1]
        simp only [List.map_cons, List.sum_cons, hpr]
        ring
      · rw [(ih _).2.2.1, List.filter_cons]
        by_cases hrh : r.riskLevel = RiskLevel.high
        · simp [hrh]
          omega
        · simp [hrh]
      · rw [(ih _).2.2.2, List.filter_cons]
        by_cases hrm : r.riskLevel = RiskLevel.medium
        · simp [hrm]
          omega
        · by_cases hrh : r.riskLevel = RiskLevel.high <;> simp [hrh, hrm]

theorem filter_length_pos_iff_any (l : List TestResult) (f : TestResult → Bool) :
    0 < (l.filter f).length ↔ l.any f = true := by
  rw [List.length_pos, Ne, List.filter_eq_nil_iff, List.any_eq_true]
  push_neg
  simp

/-- **C4.** `analyzeTestResults` produces one `TestResult` per kit parameter
with a matching submitted value (by name; parameters without a value are
skipped), each result recording the classifier outputs for its parameter;
the overall risk is `high` if any result is `high`, else `medium` if any is
`medium`, else `low`; and the confidence is the arithmetic mean of the
matched parameters' confidence scores, 0 when nothing matched. -/
theorem analyzeTestResults_spec :
    ∀ (kit : TestingKit) (parameterValues : List ParameterValue),
      ((analyzeTestResults kit parameterValues).results.length =
        (kit.parameters.filter (fun p =>
          (parameterValues.find? (fun pv => pv.name = p.name)).isSome)).length) ∧
      (∀ r ∈ (analyzeTestResults kit parameterValues).results,
        r.parameter ∈ kit.parameters ∧
        (∃ pv ∈ parameterValues, pv.name = r.parameter.name ∧ pv.value = r.value) ∧
        r.isInCriticalRange = isInCriticalRange r.parameter r.value ∧
        r.riskLevel = getRiskLevel r.parameter r.value) ∧
      ((analyzeTestResults kit parameterValues).overallRisk =
        (if (analyzeTestResults kit parameterValues).results.any
            (fun r => r.riskLevel = RiskLevel.high) then RiskLevel.high
         else if (analyzeTestResults kit parameterValues).results.any
            (fun r => r.riskLevel = RiskLevel.medium) then RiskLevel.medium
         else RiskLevel.low)) ∧
      ((analyzeTestResults kit parameterValues).confidence =
        (if (analyzeTestResults kit parameterValues).results.length = 0 then 0
         else ((analyzeTestResults kit parameterValues).results.map
            (fun r => r.parameter.confidence_score)).sum /
          ((analyzeTestResults kit parameterValues).results.length : ℚ))) := by
  intro kit pvs
  obtain ⟨hres, hconf, hhigh, hmed⟩ := analyzeFoldl_spec pvs kit.parameters ⟨[], 0, 0, 0⟩
  have hres0 : (analyzeTestResults kit pvs).results =
      kit.parameters.filterMap (matchResult pvs) := by
    rw [show (analyzeTestResults kit pvs).results =
      (kit.parameters.foldl (analyzeStep pvs) ⟨[], 0, 0, 0⟩).results from rfl, hres]
    simp
  refine ⟨?_, ?_, ?_, ?_⟩
  · rw [hres0, length_filterMap_matchResult]
  · intro r hrmem
    rw [hres0] at hrmem
    obtain ⟨p, hp_mem, hm⟩ := List.mem_filterMap.mp hrmem
    obtain ⟨pv, hfind, hr⟩ := (matchResult_eq_some_iff pvs p r).mp hm
    have hpv_mem : pv ∈ pvs := List.mem_of_find?_eq_some hfind
    have hpv_name : pv.name = p.name := by
      have := List.find?_some hfind
      simpa using this
    subst hr
    exact ⟨hp_mem, ⟨pv, hpv_mem, hpv_name, rfl⟩, rfl, rfl⟩
  · have hov : (analyzeTestResults kit pvs).overallRisk =
        (if 0 < (kit.parameters.foldl (analyzeStep pvs) ⟨[], 0, 0, 0⟩).highRiskCount
          then RiskLevel.high
         else if 0 <
            (kit.parameters.foldl (analyzeStep pvs) ⟨[], 0, 0, 0⟩).mediumRiskCount
          then RiskLevel.medium
         else RiskLevel.low) := rfl
    rw [hov, hhigh, hmed, hres0]
    simp only [Nat.zero_add, filter_length_pos_iff_any]
  · have hcf : (analyzeTestResults kit pvs).confidence =
        (if 0 < (kit.parameters.foldl (analyzeStep pvs) ⟨[], 0, 0, 0⟩).results.length
          then (kit.parameters.foldl (analyzeStep pvs) ⟨[], 0, 0, 0⟩).totalConfidence /
            ((kit.parameters.foldl (analyzeStep pvs) ⟨[], 0, 0, 0⟩).results.length : ℚ)
         else 0) := rfl
    rw [hcf, hres, hconf, hres0]
    simp only [List.nil_append, zero_add]
    rcases Nat.eq_zero_or_pos (kit.parameters.filterMap (matchResult pvs)).length
      with h0 | hpos
    · simp [h0]
    · rw [if_pos hpos, if_neg (by omega)]

/-- Witness for C4: the spec's end-to-end scenario (pH 9.0 critical-medium,
Chlorine 0.5 fine) produces two results, overall `medium`, confidence
`0.775`, and its first result records the classifier outputs. -/
theorem analyzeTestResults_spec_witness :
    (analyzeTestResults scenarioKit scenarioValues).results.length = 2 ∧
    (analyzeTestResults scenarioKit scenarioValues).overallRisk = RiskLevel.medium ∧
    (analyzeTestResults scenarioKit scenarioValues).confidence = 0.775 ∧
    pH_FTK ∈ scenarioKit.parameters := by
  refine ⟨?_, ?_, ?_, ?_⟩
  · exact ((analyzeTestResults_spec scenarioKit scenarioValues).1).trans (by decide)
  · exact ((analyzeTestResults_spec scenarioKit scenarioValues).2.2.1).trans (by decide)
  · exact ((analyzeTestResults_spec scenarioKit scenarioValues).2.2.2).trans (by decide)
  · exact (((analyzeTestResults_spec scenarioKit scenarioValues).2.1
      ⟨pH_FTK, .num 9, true, .medium⟩ (by decide)).1)

end WaterMonitoring
